import Mathlib

/-!
Shallow embedding of the `liwin` windowing crate's Windows event-translation
engine (`src/imp/windows/wndproc.rs`, `window.rs`, `hwnd.rs`) together with
theorems checking the natural-language specification against it.

Machine integers are modelled as `Nat` (unsigned) or `Int` (signed results of
casts), with explicit `% 2^w` truncation where the source performs a narrowing
cast.  Events delivered to the type-erased handler function are modelled as an
explicit list of emitted events; the installed handler is modelled by an
optional identity tag (`none` stands for the no-op `default_state_handler`).
-/

namespace Liwin

/-! ## Windows message and flag constants (values of the `windows_sys` bindings) -/

def WM_CLOSE : Nat := 0x0010
def WM_SIZE : Nat := 0x0005
def WM_MOVE : Nat := 0x0003
def WM_MOUSEMOVE : Nat := 0x0200
def WM_INPUT : Nat := 0x00FF
def WM_CHAR : Nat := 0x0102

def RI_KEY_MAKE : Nat := 0
def RI_KEY_BREAK : Nat := 1
def RI_KEY_E0 : Nat := 2
def RI_KEY_E1 : Nat := 4

def MOUSE_MOVE_RELATIVE : Nat := 0
def MOUSE_MOVE_ABSOLUTE : Nat := 1

def RI_MOUSE_LEFT_BUTTON_DOWN : Nat := 0x0001
def RI_MOUSE_LEFT_BUTTON_UP : Nat := 0x0002
def RI_MOUSE_RIGHT_BUTTON_DOWN : Nat := 0x0004
def RI_MOUSE_RIGHT_BUTTON_UP : Nat := 0x0008
def RI_MOUSE_MIDDLE_BUTTON_DOWN : Nat := 0x0010
def RI_MOUSE_MIDDLE_BUTTON_UP : Nat := 0x0020
def RI_MOUSE_BUTTON_4_DOWN : Nat := 0x0040
def RI_MOUSE_BUTTON_4_UP : Nat := 0x0080
def RI_MOUSE_BUTTON_5_DOWN : Nat := 0x0100
def RI_MOUSE_BUTTON_5_UP : Nat := 0x0200
def RI_MOUSE_WHEEL : Nat := 0x0400
def RI_MOUSE_HWHEEL : Nat := 0x0800

def WHEEL_DELTA : Nat := 120

/-! ## The portable event model (`src/event.rs`) -/

/-- Logical keyboard keys, from the `Key` enumeration in `src/event.rs`. -/
inductive Key
  | Backspace | Tab | Enter | Escape | Space
  | PageUp | PageDown | End | Home | Left | Up | Right | Down
  | Insert | Delete
  | Zero | One | Two | Three | Four | Five | Six | Seven | Eight | Nine
  | A | B | C | D | E | F | G | H | I | J | K | L | M
  | N | O | P | Q | R | S | T | U | V | W | X | Y | Z
  | F1 | F2 | F3 | F4 | F5 | F6 | F7 | F8 | F9 | F10 | F11 | F12
  | F13 | F14 | F15 | F16 | F17 | F18 | F19 | F20 | F21 | F22 | F23 | F24
  | NumLock | ScrollLock
  | LeftShift | RightShift | LeftControl | RightControl | LeftAlt | RightAlt
  | LeftMeta | RightMeta | Menu | PrintScreen | Pause | CapsLock
  | VolumeUp | VolumeDown | VolumeMute
  | MediaPlayPause | MediaStop | MediaPrevious | MediaNext
  | Numpad0 | Numpad1 | Numpad2 | Numpad3 | Numpad4
  | Numpad5 | Numpad6 | Numpad7 | Numpad8 | Numpad9
  | NumpadDecimal | NumpadAdd | NumpadSubtract | NumpadMultiply | NumpadDivide
  | NumpadEnter
deriving DecidableEq, Repr

/-- Key identity: `MakeCode` plus E0/E1 extended-flag byte (`imp/windows/mod.rs`). -/
structure KeyCode where
  code : Nat
  extended_flags : Nat
deriving DecidableEq, Repr

/-- An event received from the windowing system (`src/event.rs`).  A `char`
payload is modelled by its Unicode scalar value; `f64` wheel deltas are
modelled exactly as rationals (the source divides an integer by 120). -/
inductive Event
  | CloseRequested
  | Resized (width height : Nat)
  | Moved (x y : Int)
  | CursorMoved (x y : Int)
  | Text (c : Nat)
  | MouseMoved (device : Nat) (dx dy : Int)
  | MouseWheel (device : Nat) (dx dy : Rat)
  | MouseButton (device : Nat) (button : Nat) (pressed : Bool)
  | KeyboardKey (device : Nat) (key : Option Key) (code : KeyCode) (pressed : Bool)
deriving DecidableEq, Repr

/-! ## Surrogate-pair assembly (`src/imp/windows/wndproc.rs`) -/

/-- Returns whether the provided code is a low surrogate
(`is_low_surrogate`, wndproc.rs line 584). -/
def is_low_surrogate (code : Nat) : Bool :=
  0xDC00 ≤ code && code ≤ 0xDFFF

/-- Returns whether the provided code is a high surrogate
(`is_high_surrogate`, wndproc.rs line 589). -/
def is_high_surrogate (code : Nat) : Bool :=
  0xD800 ≤ code && code ≤ 0xDBFF

/-- Model of Rust `char::from_u32`: succeeds on every value below `0x110000`
that is not a UTF-16 surrogate. -/
def char_from_u32 (code : Nat) : Option Nat :=
  if code < 0x110000 && !(0xD800 ≤ code && code ≤ 0xDFFF) then some code else none

/-- Model of `decode_utf16` (wndproc.rs line 594): it feeds `[low, high]`, in
that order, to `std::char::decode_utf16` and keeps the first item when it is
`Ok`.  The standard decoder treats the FIRST unit as the leading (high,
0xD800–0xDBFF) half: a first unit in the trailing range 0xDC00–0xDFFF is an
unpaired-surrogate error, and a leading first unit combines with a trailing
second unit. -/
def decode_utf16 (low high : Nat) : Option Nat :=
  if 0xD800 ≤ low && low ≤ 0xDBFF then
    if 0xDC00 ≤ high && high ≤ 0xDFFF then
      some (0x10000 + (low - 0xD800) * 0x400 + (high - 0xDC00))
    else
      none
  else if 0xDC00 ≤ low && low ≤ 0xDFFF then
    none
  else
    some low

/-- Per-window event-translation state (`State` in wndproc.rs).  The
type-erased `handler_fn`/`handler_state` pair is modelled by an optional
handler identity: `none` stands for `default_state_handler` (the no-op
installed by `Default` and by `remove_handler`), `some h` for a caller handler
installed by `set_handler`. -/
structure State where
  handler : Option Nat
  low_surrogate : Nat
deriving DecidableEq, Repr

/-- The state produced by `State::default()`: no-op handler, empty
pending-surrogate slot. -/
def State.initial : State :=
  { handler := none, low_surrogate := 0 }

/-- Model of `State::set_handler`: installs the caller's handler. -/
def State.set_handler (s : State) (h : Nat) : State :=
  { s with handler := some h }

/-- Model of `State::remove_handler`: resets `handler_fn` to the no-op
`default_state_handler`. -/
def State.remove_handler (s : State) : State :=
  { s with handler := none }

/-- Model of `State::send_event`: invoking the stored handler function on one
event.  The installed handler observes the event tagged with its identity; the
no-op `default_state_handler` observes nothing. -/
def State.send_event (s : State) (e : Event) : List (Nat × Event) :=
  match s.handler with
  | none => []
  | some h => [(h, e)]

/-- Model of `State::take_u16_code_point` (wndproc.rs lines 80–98).  Returns
the updated state together with the list of events passed to `send_event`, in
order. -/
def State.take_u16_code_point (s : State) (code : Nat) : State × List Event :=
  if is_low_surrogate code then
    ({ s with low_surrogate := code }, [])
  else if is_high_surrogate code then
    if s.low_surrogate = 0 then
      (s, [])
    else
      match decode_utf16 s.low_surrogate code with
      | some c => ({ s with low_surrogate := 0 }, [Event.Text c])
      | none => ({ s with low_surrogate := 0 }, [])
  else
    match char_from_u32 code with
    | some c => ({ s with low_surrogate := 0 }, [Event.Text c])
    | none => (s, [])

/-- Feeds a sequence of UTF-16 code units to `take_u16_code_point`,
accumulating the emitted events in order. -/
def feed_codes (s : State) (codes : List Nat) : State × List Event :=
  match codes with
  | [] => (s, [])
  | c :: rest =>
    let r1 := s.take_u16_code_point c
    let r2 := feed_codes r1.1 rest
    (r2.1, r1.2 ++ r2.2)

/-! ## Raw keyboard decoding (`handle_keyboard_event`, `compute_key`, `make_keycode`) -/

/-- The fields of `RAWKEYBOARD` read by the decoder: `MakeCode`, `VKey` and
`Flags`, all `u16`. -/
structure RAWKEYBOARD where
  MakeCode : Nat
  VKey : Nat
  Flags : Nat
deriving DecidableEq, Repr

/-- Computes the `Key` associated with the provided event (`compute_key`,
wndproc.rs lines 236–448).  Virtual-key constants are written as their
numeric `windows_sys` values. -/
def compute_key (event : RAWKEYBOARD) : Option Key :=
  let e0 : Bool := event.Flags &&& RI_KEY_E0 != 0
  match event.VKey with
  | 0x08 => some Key.Backspace
  | 0x09 => some Key.Tab
  | 0x0D => if e0 then some Key.NumpadEnter else some Key.Enter
  | 0x1B => some Key.Escape
  | 0x20 => some Key.Space
  | 0x21 => if e0 then some Key.PageUp else some Key.Numpad9
  | 0x22 => if e0 then some Key.PageDown else some Key.Numpad3
  | 0x23 => if e0 then some Key.End else some Key.Numpad1
  | 0x24 => if e0 then some Key.Home else some Key.Numpad7
  | 0x25 => if e0 then some Key.Left else some Key.Numpad4
  | 0x26 => if e0 then some Key.Up else some Key.Numpad8
  | 0x27 => if e0 then some Key.Right else some Key.Numpad6
  | 0x28 => if e0 then some Key.Down else some Key.Numpad2
  | 0x2D => if e0 then some Key.Insert else some Key.Numpad0
  | 0x2E => if e0 then some Key.Delete else some Key.NumpadDecimal
  | 48 => some Key.Zero
  | 49 => some Key.One
  | 50 => some Key.Two
  | 51 => some Key.Three
  | 52 => some Key.Four
  | 53 => some Key.Five
  | 54 => some Key.Six
  | 55 => some Key.Seven
  | 56 => some Key.Eight
  | 57 => some Key.Nine
  | 65 => some Key.A
  | 66 => some Key.B
  | 67 => some Key.C
  | 68 => some Key.D
  | 69 => some Key.E
  | 70 => some Key.F
  | 71 => some Key.G
  | 72 => some Key.H
  | 73 => some Key.I
  | 74 => some Key.J
  | 75 => some Key.K
  | 76 => some Key.L
  | 77 => some Key.M
  | 78 => some Key.N
  | 79 => some Key.O
  | 80 => some Key.P
  | 81 => some Key.Q
  | 82 => some Key.R
  | 83 => some Key.S
  | 84 => some Key.T
  | 85 => some Key.U
  | 86 => some Key.V
  | 87 => some Key.W
  | 88 => some Key.X
  | 89 => some Key.Y
  | 90 => some Key.Z
  | 0x70 => some Key.F1
  | 0x71 => some Key.F2
  | 0x72 => some Key.F3
  | 0x73 => some Key.F4
  | 0x74 => some Key.F5
  | 0x75 => some Key.F6
  | 0x76 => some Key.F7
  | 0x77 => some Key.F8
  | 0x78 => some Key.F9
  | 0x79 => some Key.F10
  | 0x7A => some Key.F11
  | 0x7B => some Key.F12
  | 0x7C => some Key.F13
  | 0x7D => some Key.F14
  | 0x7E => some Key.F15
  | 0x7F => some Key.F16
  | 0x80 => some Key.F17
  | 0x81 => some Key.F18
  | 0x82 => some Key.F19
  | 0x83 => some Key.F20
  | 0x84 => some Key.F21
  | 0x85 => some Key.F22
  | 0x86 => some Key.F23
  | 0x87 => some Key.F24
  | 0x90 => some Key.NumLock
  | 0x91 => some Key.ScrollLock
  | 0xA0 => some Key.LeftShift
  | 0xA1 => some Key.RightShift
  | 0x10 => if event.MakeCode = 0x36 then some Key.RightShift else some Key.LeftShift
  | 0xA2 => some Key.LeftControl
  | 0xA3 => some Key.RightControl
  | 0x11 => if e0 then some Key.RightControl else some Key.LeftControl
  | 0xA4 => some Key.LeftAlt
  | 0xA5 => some Key.RightAlt
  | 0x12 => if e0 then some Key.RightAlt else some Key.LeftAlt
  | 0x5B => some Key.LeftMeta
  | 0x5C => some Key.RightMeta
  | 0x5D => some Key.Menu
  | 0x2C => some Key.PrintScreen
  | 0x13 => some Key.Pause
  | 0x14 => some Key.CapsLock
  | 0xAF => some Key.VolumeUp
  | 0xAE => some Key.VolumeDown
  | 0xAD => some Key.VolumeMute
  | 0xB0 => some Key.MediaNext
  | 0xB1 => some Key.MediaPrevious
  | 0xB2 => some Key.MediaStop
  | 0xB3 => some Key.MediaPlayPause
  | 0x60 => some Key.Numpad0
  | 0x61 => some Key.Numpad1
  | 0x62 => some Key.Numpad2
  | 0x63 => some Key.Numpad3
  | 0x64 => some Key.Numpad4
  | 0x65 => some Key.Numpad5
  | 0x66 => some Key.Numpad6
  | 0x67 => some Key.Numpad7
  | 0x68 => some Key.Numpad8
  | 0x69 => some Key.Numpad9
  | 0x6A => some Key.NumpadMultiply
  | 0x6B => some Key.NumpadAdd
  | 0x6D => some Key.NumpadSubtract
  | 0x6E => some Key.NumpadDecimal
  | 0x6F => some Key.NumpadDivide
  | _ => none

/-- Creates a `KeyCode` instance from the provided `RAWKEYBOARD` event
(`make_keycode`, wndproc.rs lines 451–464). -/
def make_keycode (keyboard : RAWKEYBOARD) : KeyCode :=
  let f0 : Nat := if keyboard.Flags &&& RI_KEY_E0 != 0 then 0x01 else 0
  let f1 : Nat := if keyboard.Flags &&& RI_KEY_E1 != 0 then 0x02 else 0
  { code := keyboard.MakeCode, extended_flags := f0 ||| f1 }

/-- Handles a raw keyboard event (`handle_keyboard_event`, wndproc.rs lines
221–233).  Returns the events passed to `send_event`, in order. -/
def handle_keyboard_event (device : Nat) (keyboard : RAWKEYBOARD) : List Event :=
  if keyboard.VKey = 255 then
    []
  else
    [Event.KeyboardKey device (compute_key keyboard) (make_keycode keyboard)
      ((keyboard.Flags &&& RI_KEY_BREAK) = RI_KEY_MAKE)]

/-! ## Raw mouse decoding (`handle_mouse_event`) -/

/-- The fields of `RAWMOUSE` read by the decoder.  `lLastX`/`lLastY` are
`i32`; `usFlags`, `usButtonFlags`, `usButtonData` are `u16`. -/
structure RAWMOUSE where
  usFlags : Nat
  lLastX : Int
  lLastY : Int
  usButtonFlags : Nat
  usButtonData : Nat
deriving DecidableEq, Repr

/-- Reinterpretation of a `u16` bit pattern as an `i16` (the `as i16` cast). -/
def i16_of_u16 (n : Nat) : Int :=
  if n % 0x10000 < 0x8000 then (n % 0x10000 : Int) else (n % 0x10000 : Int) - 0x10000

/-- Handles a raw mouse event (`handle_mouse_event`, wndproc.rs lines
467–581).  Returns the events passed to `send_event`, in order: the motion
event first, then the button transitions in the source's fixed order (left
down, left up, middle down, middle up, right down, right up, button-4 down,
button-4 up, button-5 down, button-5 up), then wheel, then horizontal
wheel. -/
def handle_mouse_event (device : Nat) (mouse : RAWMOUSE) : List Event :=
  (if (mouse.usFlags &&& MOUSE_MOVE_ABSOLUTE) = MOUSE_MOVE_RELATIVE
      ∧ (mouse.lLastX ≠ 0 ∨ mouse.lLastY ≠ 0) then
    [Event.MouseMoved device mouse.lLastX mouse.lLastY]
  else []) ++
  (if mouse.usButtonFlags &&& RI_MOUSE_LEFT_BUTTON_DOWN ≠ 0 then
    [Event.MouseButton device 0 true]
  else []) ++
  (if mouse.usButtonFlags &&& RI_MOUSE_LEFT_BUTTON_UP ≠ 0 then
    [Event.MouseButton device 0 false]
  else []) ++
  (if mouse.usButtonFlags &&& RI_MOUSE_MIDDLE_BUTTON_DOWN ≠ 0 then
    [Event.MouseButton device 1 true]
  else []) ++
  (if mouse.usButtonFlags &&& RI_MOUSE_MIDDLE_BUTTON_UP ≠ 0 then
    [Event.MouseButton device 1 false]
  else []) ++
  (if mouse.usButtonFlags &&& RI_MOUSE_RIGHT_BUTTON_DOWN ≠ 0 then
    [Event.MouseButton device 2 true]
  else []) ++
  (if mouse.usButtonFlags &&& RI_MOUSE_RIGHT_BUTTON_UP ≠ 0 then
    [Event.MouseButton device 2 false]
  else []) ++
  (if mouse.usButtonFlags &&& RI_MOUSE_BUTTON_4_DOWN ≠ 0 then
    [Event.MouseButton device 4 true]
  else []) ++
  (if mouse.usButtonFlags &&& RI_MOUSE_BUTTON_4_UP ≠ 0 then
    [Event.MouseButton device 4 false]
  else []) ++
  (if mouse.usButtonFlags &&& RI_MOUSE_BUTTON_5_DOWN ≠ 0 then
    [Event.MouseButton device 5 true]
  else []) ++
  (if mouse.usButtonFlags &&& RI_MOUSE_BUTTON_5_UP ≠ 0 then
    [Event.MouseButton device 5 false]
  else []) ++
  (if mouse.usButtonFlags &&& RI_MOUSE_WHEEL ≠ 0 then
    [Event.MouseWheel device 0 ((i16_of_u16 mouse.usButtonData : Rat) / (WHEEL_DELTA : Rat))]
  else []) ++
  (if mouse.usButtonFlags &&& RI_MOUSE_HWHEEL ≠ 0 then
    [Event.MouseWheel device ((i16_of_u16 mouse.usButtonData : Rat) / (WHEEL_DELTA : Rat)) 0]
  else [])

/-! ## The window procedure and the message pump
(`wndproc.rs`, `hwnd.rs`, `window.rs`) -/

/-- The outcome of `read_rawinput` / the `dwType` dispatch of
`handle_raw_input`: `none` models a failed `GetRawInputData` call, `other` a
`dwType` that is neither keyboard nor mouse.  The device is the sample's
`header.hDevice`. -/
inductive RawInputRead
  | keyboard (device : Nat) (kb : RAWKEYBOARD)
  | mouse (device : Nat) (m : RAWMOUSE)
  | other
deriving DecidableEq, Repr

/-- Handles a raw input event (`handle_raw_input`, wndproc.rs lines 180–196),
given the outcome of reading the `RAWINPUT` structure from the OS.  Returns
the events passed to `send_event`. -/
def handle_raw_input (read : Option RawInputRead) : List Event :=
  match read with
  | none => []
  | some (RawInputRead.keyboard device kb) => handle_keyboard_event device kb
  | some (RawInputRead.mouse device m) => handle_mouse_event device m
  | some RawInputRead.other => []

/-- Result of `default_wndproc` (wndproc.rs lines 12–17): for `WM_CLOSE` it
returns 0 itself; for every other message it delegates to the OS default
processing `DefWindowProcW` (which, on `WM_CLOSE`, would destroy the
window). -/
inductive DefaultWndprocResult
  | handled_zero
  | os_default
deriving DecidableEq, Repr

/-- The default window procedure (`default_wndproc`): ignores `WM_CLOSE`
(returning 0) and calls `DefWindowProcW` for everything else. -/
def default_wndproc (msg : Nat) : DefaultWndprocResult :=
  if msg = WM_CLOSE then DefaultWndprocResult.handled_zero
  else DefaultWndprocResult.os_default

/-- The per-message state update and event emission performed by `wndproc`
(wndproc.rs lines 147–173) when a `State` is attached.  `wparam`/`lparam`
hold the raw machine words as natural bit patterns; `read` is the OS's answer
to `GetRawInputData` for a `WM_INPUT` message. -/
def wndproc_dispatch (s : State) (msg wparam lparam : Nat)
    (read : Option RawInputRead) : State × List Event :=
  if msg = WM_CLOSE then
    (s, [Event.CloseRequested])
  else if msg = WM_SIZE then
    (s, [Event.Resized (lparam % 0x10000) ((lparam / 0x10000) % 0x10000)])
  else if msg = WM_MOVE then
    (s, [Event.Moved (i16_of_u16 (lparam % 0x10000)) (i16_of_u16 ((lparam / 0x10000) % 0x10000))])
  else if msg = WM_MOUSEMOVE then
    (s, [Event.CursorMoved (i16_of_u16 (lparam % 0x10000)) (i16_of_u16 ((lparam / 0x10000) % 0x10000))])
  else if msg = WM_INPUT then
    (s, handle_raw_input read)
  else if msg = WM_CHAR then
    s.take_u16_code_point (wparam % 0x10000)
  else
    (s, [])

/-- The window procedure (`wndproc`, wndproc.rs lines 136–177).  The first
component is the updated attached state (`none` when the userdata field was
null), the second the events passed to `send_event`, and the third records
whether the message fell through to the OS default processing. -/
def wndproc (state : Option State) (msg wparam lparam : Nat)
    (read : Option RawInputRead) : Option State × List Event × DefaultWndprocResult :=
  match state with
  | none => (none, [], default_wndproc msg)
  | some s =>
    let r := wndproc_dispatch s msg wparam lparam read
    (some r.1, r.2, default_wndproc msg)

/-- One queued native message, as retrieved by `PeekMessageW`/`GetMessageW`
and routed into `wndproc` by `DispatchMessageW`. -/
structure RawMsg where
  msg : Nat
  wparam : Nat
  lparam : Nat
  read : Option RawInputRead
deriving DecidableEq, Repr

/-- Dispatching one message into the window procedure of a window whose
attached state is `s`: the state update together with the observations of the
installed handler (each sent event reaches the handler installed at dispatch
time; the no-op observes nothing). -/
def dispatch_message (s : State) (m : RawMsg) : State × List (Nat × Event) :=
  let r := wndproc_dispatch s m.msg m.wparam m.lparam m.read
  (r.1, match s.handler with
        | none => []
        | some h => r.2.map fun e => (h, e))

/-- The non-blocking drain loop `while self.hwnd.peek_messages() {}`
(window.rs line 69): dispatches every queued message in order until
`PeekMessageW` reports an empty queue. -/
def peek_messages_all (s : State) (queue : List RawMsg) : State × List (Nat × Event) :=
  match queue with
  | [] => (s, [])
  | m :: rest =>
    let r1 := dispatch_message s m
    let r2 := peek_messages_all r1.1 rest
    (r2.1, r1.2 ++ r2.2)

/-- The platform error type (`imp/windows/error.rs`): a `WIN32_ERROR`
code. -/
structure Error where
  code : Nat
deriving DecidableEq, Repr

/-- The outcome of the blocking `GetMessageW` call inside
`Hwnd::get_messages` (hwnd.rs lines 163–179): `-1` with a last-error code, a
`WM_QUIT` (return 0), or a message to dispatch. -/
inductive GetMessageReturn
  | failure (err : Error)
  | quit
  | message (m : RawMsg)
deriving DecidableEq, Repr

/-- Model of `Hwnd::get_messages`: on `-1` it returns
`Err(Error::last())`; on 0 it returns `Ok(())`; otherwise it dispatches the
retrieved message and returns `Ok(())`.  The second and third components are
the state update and handler observations caused by the dispatch. -/
def get_messages (s : State) (ret : GetMessageReturn) :
    Except Error Unit × State × List (Nat × Event) :=
  match ret with
  | GetMessageReturn.failure err => (Except.error err, s, [])
  | GetMessageReturn.quit => (Except.ok (), s, [])
  | GetMessageReturn.message m =>
    let r := dispatch_message s m
    (Except.ok (), r.1, r.2)

/-- Model of `Window::poll_events` (window.rs lines 63–70): the
`HandlerGuard` installs the caller's handler, the queue is drained without
blocking, and the guard's drop removes the handler on the way out.  Returns
the final attached state and the handler observations. -/
def poll_events (s : State) (handler : Nat) (queue : List RawMsg) :
    State × List (Nat × Event) :=
  let s1 := s.set_handler handler
  let r := peek_messages_all s1 queue
  (r.1.remove_handler, r.2)

/-- Model of `Window::blocking_poll_events` (window.rs lines 73–81): install
the handler, perform one blocking `get_messages` whose `Result` is discarded
(`let _ = self.hwnd.get_messages();`), drain the remaining queue, and remove
the handler via the guard's drop. -/
def blocking_poll_events (s : State) (handler : Nat) (wait : GetMessageReturn)
    (queue : List RawMsg) : State × List (Nat × Event) :=
  let s1 := s.set_handler handler
  let r1 := get_messages s1 wait
  let r2 := peek_messages_all r1.2.1 queue
  (r2.1.remove_handler, r1.2.2 ++ r2.2)

/-! ## Derived definitions used by the statements -/

/-- The duplicated navigation/numpad virtual keys and the fixed table of
logical keys the decoder resolves them to: `(virtual key, key when the E0
flag is set, key when the E0 flag is unset)`, read off the arms of
`compute_key` for `VK_PRIOR` … `VK_DELETE`. -/
def nav_numpad_table : List (Nat × Key × Key) :=
  [(0x21, (Key.PageUp, Key.Numpad9)),
   (0x22, (Key.PageDown, Key.Numpad3)),
   (0x23, (Key.End, Key.Numpad1)),
   (0x24, (Key.Home, Key.Numpad7)),
   (0x25, (Key.Left, Key.Numpad4)),
   (0x26, (Key.Up, Key.Numpad8)),
   (0x27, (Key.Right, Key.Numpad6)),
   (0x28, (Key.Down, Key.Numpad2)),
   (0x2D, (Key.Insert, Key.Numpad0)),
   (0x2E, (Key.Delete, Key.NumpadDecimal))]

/-- The `(button, pressed)` payloads of the `MouseButton` events of a list,
in order. -/
def mouse_button_events (events : List Event) : List (Nat × Bool) :=
  events.filterMap fun e =>
    match e with
    | Event.MouseButton _ b p => some (b, p)
    | _ => none

/-- Modelled from the spec: the ordered list of `(down-flag, up-flag,
button-ordinal)` triples, in the fixed button-ordinal order left, middle,
right, 4, 5. -/
def button_transitions : List (Nat × Nat × Nat) :=
  [(RI_MOUSE_LEFT_BUTTON_DOWN, (RI_MOUSE_LEFT_BUTTON_UP, 0)),
   (RI_MOUSE_MIDDLE_BUTTON_DOWN, (RI_MOUSE_MIDDLE_BUTTON_UP, 1)),
   (RI_MOUSE_RIGHT_BUTTON_DOWN, (RI_MOUSE_RIGHT_BUTTON_UP, 2)),
   (RI_MOUSE_BUTTON_4_DOWN, (RI_MOUSE_BUTTON_4_UP, 4)),
   (RI_MOUSE_BUTTON_5_DOWN, (RI_MOUSE_BUTTON_5_UP, 5))]

/-- Modelled from the spec: each button's down and up transition flags
independently emit one button event per set flag, evaluated in the fixed
button-ordinal order. -/
def button_events_spec (flags : Nat) : List (Nat × Bool) :=
  button_transitions.flatMap fun t =>
    (if flags &&& t.1 ≠ 0 then [(t.2.2, true)] else []) ++
    (if flags &&& t.2.1 ≠ 0 then [(t.2.2, false)] else [])

/-! ## Helper lemmas about the surrogate assembler -/

lemma is_low_surrogate_iff (code : Nat) :
    is_low_surrogate code = true ↔ 0xDC00 ≤ code ∧ code ≤ 0xDFFF := by
  simp [is_low_surrogate]

lemma is_high_surrogate_iff (code : Nat) :
    is_high_surrogate code = true ↔ 0xD800 ≤ code ∧ code ≤ 0xDBFF := by
  simp [is_high_surrogate]

lemma char_from_u32_of_nonsurrogate (code : Nat) (hc : code < 0x10000)
    (h1 : is_low_surrogate code = false) (h2 : is_high_surrogate code = false) :
    char_from_u32 code = some code := by
  have l1 : ¬ (0xDC00 ≤ code ∧ code ≤ 0xDFFF) := by
    rw [← is_low_surrogate_iff, h1]; simp
  have l2 : ¬ (0xD800 ≤ code ∧ code ≤ 0xDBFF) := by
    rw [← is_high_surrogate_iff, h2]; simp
  unfold char_from_u32
  rw [if_pos]
  simp only [Bool.and_eq_true, decide_eq_true_eq, Bool.not_eq_true',
    Bool.and_eq_false_iff, decide_eq_false_iff_not]
  omega

/-- Characterization of `take_u16_code_point` on a non-surrogate `u16`. -/
lemma take_u16_code_point_nonsurrogate (s : State) (code : Nat) (hc : code < 0x10000)
    (h1 : is_low_surrogate code = false) (h2 : is_high_surrogate code = false) :
    s.take_u16_code_point code = ({ s with low_surrogate := 0 }, [Event.Text code]) := by
  unfold State.take_u16_code_point
  rw [if_neg (by simp [h1]), if_neg (by simp [h2]),
    char_from_u32_of_nonsurrogate code hc h1 h2]

/-- Characterization of `take_u16_code_point` on a low surrogate: the unit is
buffered (overwriting any pending unit) and nothing is emitted. -/
lemma take_u16_code_point_low (s : State) (code : Nat)
    (h : is_low_surrogate code = true) :
    s.take_u16_code_point code = ({ s with low_surrogate := code }, []) := by
  unfold State.take_u16_code_point
  rw [if_pos (by simp [h])]

/-- One step of the pending-slot invariant: the slot always holds 0 or a low
surrogate. -/
lemma take_u16_code_point_inv (s : State) (code : Nat)
    (h : s.low_surrogate = 0 ∨ is_low_surrogate s.low_surrogate = true) :
    (s.take_u16_code_point code).1.low_surrogate = 0 ∨
      is_low_surrogate (s.take_u16_code_point code).1.low_surrogate = true := by
  unfold State.take_u16_code_point
  split
  next hl => exact Or.inr hl
  next hl =>
    split
    next hh =>
      split
      next h0 => exact Or.inl h0
      next h0 =>
        cases hd : decode_utf16 s.low_surrogate code <;> simp [hd]
    next hh =>
      cases hch : char_from_u32 code <;> simp [hch]
      exact h

/-- The pending-slot invariant over any fed sequence. -/
lemma feed_codes_inv (codes : List Nat) :
    ∀ s : State, (s.low_surrogate = 0 ∨ is_low_surrogate s.low_surrogate = true) →
      ((feed_codes s codes).1.low_surrogate = 0 ∨
        is_low_surrogate (feed_codes s codes).1.low_surrogate = true) := by
  induction codes with
  | nil => intro s h; exact h
  | cons c rest ih =>
    intro s h
    simpa [feed_codes] using ih _ (take_u16_code_point_inv s c h)

/-! ## Claim theorems -/

/-- C1: feeding a low surrogate (0xDC00–0xDFFF) then a high surrogate
(0xD800–0xDBFF) to `State::take_u16_code_point` emits NO `Text` event — not
the one decoded character the specification promises.  The source's
`decode_utf16` hands `[low, high]` in that order to the standard decoder,
which rejects a trailing surrogate in first position, so the pair
0xDC00, 0xD800 (which denotes U+10000) produces an empty event list and the
helper returns `none`.  This contradicts the code's own documentation, which
says the buffered unit "is combined with the high surrogate to form a full
UTF-32 code point". -/
theorem c1_surrogate_pair_emits_nothing :
    feed_codes State.initial [0xDC00, 0xD800] = (State.initial, []) ∧
    decode_utf16 0xDC00 0xD800 = none := by
  constructor <;> rfl

/-- C4: a non-surrogate `u16` unit fed while a low surrogate is pending
discards the pending unit (the slot is reset to 0 and no event carries the
stale half) and processes the new unit on its own, emitting exactly its own
`Text` event. -/
theorem c4_nonsurrogate_discards_pending (s : State) (code : Nat)
    (_hpend : is_low_surrogate s.low_surrogate = true)
    (hc : code < 0x10000)
    (h1 : is_low_surrogate code = false) (h2 : is_high_surrogate code = false) :
    (s.take_u16_code_point code).1.low_surrogate = 0 ∧
    (s.take_u16_code_point code).2 = [Event.Text code] := by
  rw [take_u16_code_point_nonsurrogate s code hc h1 h2]
  exact ⟨rfl, rfl⟩

/-- Witness for C4: the pending low surrogate 0xDC00 is discarded when the
plain unit 65 arrives, which emits only its own `Text` event. -/
theorem c4_nonsurrogate_discards_pending_witness :
    (State.take_u16_code_point ⟨none, 0xDC00⟩ 65).1.low_surrogate = 0 ∧
    (State.take_u16_code_point ⟨none, 0xDC00⟩ 65).2 = [Event.Text 65] :=
  c4_nonsurrogate_discards_pending ⟨none, 0xDC00⟩ 65 (by decide) (by decide)
    (by decide) (by decide)

/-- C8: every non-surrogate `u16` unit (including 0) passes the
`char::from_u32` guard and emits exactly one `Text` event carrying the unit's
value, leaving the pending-surrogate slot empty. -/
theorem c8_nonsurrogate_always_emits (s : State) (code : Nat)
    (hc : code < 0x10000)
    (h1 : is_low_surrogate code = false) (h2 : is_high_surrogate code = false) :
    char_from_u32 code = some code ∧
    s.take_u16_code_point code = ({ s with low_surrogate := 0 }, [Event.Text code]) :=
  ⟨char_from_u32_of_nonsurrogate code hc h1 h2,
   take_u16_code_point_nonsurrogate s code hc h1 h2⟩

/-- Witness for C8: the unit 0 emits `Text 0` from the initial state. -/
theorem c8_nonsurrogate_always_emits_witness :
    char_from_u32 0 = some 0 ∧
    State.take_u16_code_point State.initial 0 =
      ({ State.initial with low_surrogate := 0 }, [Event.Text 0]) :=
  c8_nonsurrogate_always_emits State.initial 0 (by decide) (by decide) (by decide)

/-- C9: a low surrogate fed at any state (in particular while another low
surrogate is pending) emits nothing and overwrites the slot; consequently,
starting from the initial state, after any fed sequence the pending slot
holds 0 or a value in 0xDC00–0xDFFF, so the 0 sentinel never collides with a
buffered value. -/
theorem c9_low_surrogate_overwrites_and_invariant :
    (∀ (s : State) (code : Nat), is_low_surrogate code = true →
      s.take_u16_code_point code = ({ s with low_surrogate := code }, [])) ∧
    (∀ codes : List Nat,
      (feed_codes State.initial codes).1.low_surrogate = 0 ∨
        is_low_surrogate (feed_codes State.initial codes).1.low_surrogate = true) := by
  refine ⟨take_u16_code_point_low, fun codes => ?_⟩
  exact feed_codes_inv codes State.initial (Or.inl rfl)

/-- Witness for C9: feeding the low surrogate 0xDFFF while 0xDC00 is pending
overwrites the slot and emits nothing. -/
theorem c9_low_surrogate_overwrites_and_invariant_witness :
    State.take_u16_code_point ⟨none, 0xDC00⟩ 0xDFFF =
      ({ (⟨none, 0xDC00⟩ : State) with low_surrogate := 0xDFFF }, []) :=
  c9_low_surrogate_overwrites_and_invariant.1 ⟨none, 0xDC00⟩ 0xDFFF (by decide)

/-! ## Helper lemmas about the pump and the handler slot -/

lemma take_u16_code_point_handler (s : State) (code : Nat) :
    (s.take_u16_code_point code).1.handler = s.handler := by
  unfold State.take_u16_code_point
  repeat' split
  all_goals rfl

lemma wndproc_dispatch_handler (s : State) (msg wparam lparam : Nat)
    (read : Option RawInputRead) :
    (wndproc_dispatch s msg wparam lparam read).1.handler = s.handler := by
  unfold wndproc_dispatch
  repeat' split
  all_goals first | rfl | exact take_u16_code_point_handler s _

lemma dispatch_message_handler (s : State) (m : RawMsg) :
    (dispatch_message s m).1.handler = s.handler :=
  wndproc_dispatch_handler s m.msg m.wparam m.lparam m.read

lemma dispatch_message_tag (s : State) (m : RawMsg) (p : Nat × Event) :
    p ∈ (dispatch_message s m).2 → s.handler = some p.1 := by
  intro hp
  unfold dispatch_message at hp
  cases hh : s.handler with
  | none => rw [hh] at hp; simp at hp
  | some h =>
    rw [hh] at hp
    simp only [List.mem_map] at hp
    obtain ⟨e, _, rfl⟩ := hp
    rfl

lemma peek_messages_all_handler (queue : List RawMsg) :
    ∀ s : State, (peek_messages_all s queue).1.handler = s.handler := by
  induction queue with
  | nil => intro s; rfl
  | cons m rest ih =>
    intro s
    simp only [peek_messages_all]
    rw [ih]
    exact dispatch_message_handler s m

lemma peek_messages_all_tag (queue : List RawMsg) :
    ∀ (s : State) (p : Nat × Event),
      p ∈ (peek_messages_all s queue).2 → s.handler = some p.1 := by
  induction queue with
  | nil => intro s p hp; simp [peek_messages_all] at hp
  | cons m rest ih =>
    intro s p hp
    simp only [peek_messages_all, List.mem_append] at hp
    rcases hp with hp | hp
    · exact dispatch_message_tag s m p hp
    · have h2 := ih _ p hp
      rw [dispatch_message_handler] at h2
      exact h2

lemma get_messages_handler (s : State) (ret : GetMessageReturn) :
    (get_messages s ret).2.1.handler = s.handler := by
  cases ret <;> simp [get_messages, dispatch_message_handler]

lemma get_messages_tag (s : State) (ret : GetMessageReturn) (p : Nat × Event) :
    p ∈ (get_messages s ret).2.2 → s.handler = some p.1 := by
  cases ret with
  | failure err => simp [get_messages]
  | quit => simp [get_messages]
  | message m => exact dispatch_message_tag s m p

/-! ## Claim theorems about the pump and the decoder -/

/-- C2 counterexample: the blocking wait fails with platform error 5, and
`get_messages` duly returns `Err`, yet `blocking_poll_events` — which
discards that `Result` with `let _ =` and returns `()` — produces a result
identical to the one of a successful wait.  No recoverable error value
reaches the caller. -/
theorem c2_blocking_error_not_surfaced :
    (get_messages (State.initial.set_handler 1) (GetMessageReturn.failure ⟨5⟩)).1 =
      Except.error ⟨5⟩ ∧
    blocking_poll_events State.initial 1 (GetMessageReturn.failure ⟨5⟩) [] =
      blocking_poll_events State.initial 1 GetMessageReturn.quit [] := by
  constructor <;> rfl

/-- C2 amended: a platform error from the blocking wait is discarded by
`blocking_poll_events` — the call's outcome is exactly the outcome of a wait
that returned without a message, even though `Hwnd::get_messages` itself
reports the error. -/
theorem c2_blocking_error_discarded (s : State) (h : Nat) (err : Error)
    (queue : List RawMsg) :
    (get_messages (s.set_handler h) (GetMessageReturn.failure err)).1 =
      Except.error err ∧
    blocking_poll_events s h (GetMessageReturn.failure err) queue =
      blocking_poll_events s h GetMessageReturn.quit queue := by
  constructor <;> rfl

/-- C3: after `poll_events` or `blocking_poll_events` returns, the handler
slot is back to the no-op (`none`), and every event observed during a poll
call is observed by that call's handler — so a subsequent call with a
different handler never dispatches to the earlier one. -/
theorem c3_handler_reset_and_isolation :
    (∀ (s : State) (h : Nat) (queue : List RawMsg),
        (poll_events s h queue).1.handler = none) ∧
    (∀ (s : State) (h : Nat) (wait : GetMessageReturn) (queue : List RawMsg),
        (blocking_poll_events s h wait queue).1.handler = none) ∧
    (∀ (s : State) (h : Nat) (queue : List RawMsg) (p : Nat × Event),
        p ∈ (poll_events s h queue).2 → p.1 = h) ∧
    (∀ (s : State) (h : Nat) (wait : GetMessageReturn) (queue : List RawMsg)
        (p : Nat × Event),
        p ∈ (blocking_poll_events s h wait queue).2 → p.1 = h) := by
  refine ⟨fun s h queue => rfl, fun s h wait queue => rfl, ?_, ?_⟩
  · intro s h queue p hp
    simp only [poll_events] at hp
    have h2 : some h = some p.1 := peek_messages_all_tag queue (s.set_handler h) p hp
    exact (Option.some.inj h2).symm
  · intro s h wait queue p hp
    simp only [blocking_poll_events, List.mem_append] at hp
    rcases hp with hp | hp
    · have h2 : some h = some p.1 := get_messages_tag (s.set_handler h) wait p hp
      exact (Option.some.inj h2).symm
    · have h2 := peek_messages_all_tag queue _ p hp
      rw [get_messages_handler] at h2
      exact (Option.some.inj h2).symm

/-- Witness for C3: a poll call leaves the no-op installed, and the one
observation of a close-request poll with handler 2 is tagged with 2. -/
theorem c3_handler_reset_and_isolation_witness :
    (poll_events State.initial 1 []).1.handler = none ∧
    ((2 : Nat), Event.CloseRequested).1 = 2 :=
  ⟨c3_handler_reset_and_isolation.1 State.initial 1 [],
   c3_handler_reset_and_isolation.2.2.1 State.initial 2 [⟨WM_CLOSE, 0, 0, none⟩]
     (2, Event.CloseRequested) (by decide)⟩

/-- C5: for every duplicated navigation/numpad virtual key, the logical key
emitted by `compute_key` is the fixed table entry selected by the E0 flag
alone; in particular VKey 0x2D yields Insert with E0 set and Numpad0 with E0
unset. -/
theorem c5_nav_numpad_key_from_e0_alone (kb : RAWKEYBOARD) (t : Nat × Key × Key)
    (ht : t ∈ nav_numpad_table) (hv : kb.VKey = t.1) :
    compute_key kb = some (if kb.Flags &&& RI_KEY_E0 != 0 then t.2.1 else t.2.2) := by
  obtain ⟨mc, vk, fl⟩ := kb
  fin_cases ht <;>
    (dsimp only at hv ⊢; subst hv;
     cases hb : (fl &&& RI_KEY_E0 != 0) <;> simp [compute_key, hb])

/-- Witness for C5: the Insert/Numpad0 virtual key 0x2D with the E0 flag set
resolves to Insert. -/
theorem c5_nav_numpad_key_from_e0_alone_witness :
    compute_key ⟨0, 0x2D, 2⟩ =
      some (if (⟨0, 0x2D, 2⟩ : RAWKEYBOARD).Flags &&& RI_KEY_E0 != 0
        then ((0x2D : Nat), (Key.Insert, Key.Numpad0)).2.1
        else ((0x2D : Nat), (Key.Insert, Key.Numpad0)).2.2) :=
  c5_nav_numpad_key_from_e0_alone ⟨0, 0x2D, 2⟩ (0x2D, (Key.Insert, Key.Numpad0))
    (by decide) rfl

/-- C6: the `MouseButton` events of one raw mouse sample are exactly one
event per set down/up transition flag, in the fixed button-ordinal order
left, middle, right, 4, 5 (down before up within a button); in particular a
sample with left-down and right-up set emits exactly the two events left
pressed then right released. -/
theorem c6_mouse_button_order :
    (∀ (device : Nat) (mouse : RAWMOUSE),
        mouse_button_events (handle_mouse_event device mouse) =
          button_events_spec mouse.usButtonFlags) ∧
    mouse_button_events (handle_mouse_event 0
        ⟨0, 0, 0, RI_MOUSE_LEFT_BUTTON_DOWN ||| RI_MOUSE_RIGHT_BUTTON_UP, 0⟩) =
      [(0, true), (2, false)] := by
  constructor
  · intro device mouse
    simp only [handle_mouse_event, mouse_button_events, button_events_spec,
      button_transitions, List.filterMap_append, List.flatMap_cons, List.flatMap_nil,
      apply_ite (List.filterMap _), List.filterMap_nil, List.filterMap_cons]
    simp
  · decide

/-- C7: a raw keyboard sample that is not the VKey-255 sentinel and has no
logical mapping still emits exactly one `KeyboardKey` event with an absent
logical key and the scan-code identity present. -/
theorem c7_unmapped_key_still_emits (device : Nat) (kb : RAWKEYBOARD)
    (hv : kb.VKey ≠ 255) (hk : compute_key kb = none) :
    handle_keyboard_event device kb =
      [Event.KeyboardKey device none (make_keycode kb)
        ((kb.Flags &&& RI_KEY_BREAK) = RI_KEY_MAKE)] := by
  unfold handle_keyboard_event
  rw [if_neg hv, hk]

/-- Witness for C7: the unmapped virtual key 7 emits one event with `key =
none` and the scan-code identity of the sample. -/
theorem c7_unmapped_key_still_emits_witness :
    handle_keyboard_event 9 ⟨3, 7, 0⟩ =
      [Event.KeyboardKey 9 none (make_keycode ⟨3, 7, 0⟩)
        (((⟨3, 7, 0⟩ : RAWKEYBOARD).Flags &&& RI_KEY_BREAK) = RI_KEY_MAKE)] :=
  c7_unmapped_key_still_emits 9 ⟨3, 7, 0⟩ (by decide) (by decide)

/-- C10: a close-request message dispatches `CloseRequested` to the attached
state's handler (or does nothing when no state is attached) and is answered
with 0 by `default_wndproc` itself — the message never reaches
`DefWindowProcW`, whose default processing would destroy the window. -/
theorem c10_close_request_never_destroys (s : State) (wparam lparam : Nat)
    (read : Option RawInputRead) :
    wndproc (some s) WM_CLOSE wparam lparam read =
      (some s, [Event.CloseRequested], DefaultWndprocResult.handled_zero) ∧
    wndproc none WM_CLOSE wparam lparam read =
      (none, [], DefaultWndprocResult.handled_zero) := by
  constructor <;> rfl

end Liwin
